import Mathlib

/-!
Verification development for the `homeassistant-nanokvm` integration.

The Python sources under `custom_components/nanokvm/` are shallowly embedded:
* Python `str` is modelled as `List Char` (`Str`); `str.split()`, `str.splitlines()`,
  `str.rstrip`, `str.strip` are modelled on `\n`-separated text (the only line
  terminator produced by the shell commands involved).
* Python numbers are modelled exactly over `ℚ`; `round(x, n)` is modelled as
  decimal round-half-to-even (`pyRound`).  IEEE-754 representation error is not
  modelled: both the parsers and the spec are stated in exact arithmetic.
* `int(s)` / `float(s)` are modelled as `parseInt` / `parseFloat`, returning
  `none` where the Python builtins raise `ValueError`.
* Effectful code (the coordinator and the SSH collector) is modelled by explicit
  state passing over `CoordState`, with the outcomes of the external API /
  SSH calls supplied by an environment record (`AttemptEnv`, `SshEnv`).
-/

namespace NanoKVM

/-! ### Python string primitives over `List Char` -/

abbrev Str := List Char

/-- Whitespace characters recognised by Python `str.split()` (the subset that
can occur in the command outputs involved). -/
def isSpaceChar (c : Char) : Bool :=
  c == ' ' || c == '\t' || c == '\n' || c == '\r'

/-- Split a list at every character satisfying `p`, keeping empty chunks. -/
def splitChunks (p : Char → Bool) : Str → Str → List Str
  | [], acc => [acc.reverse]
  | c :: rest, acc =>
    if p c then acc.reverse :: splitChunks p rest []
    else splitChunks p rest (c :: acc)

/-- Python `str.split()` (no argument): split on whitespace runs, dropping
empty fields. -/
def pySplit (s : Str) : List Str :=
  (splitChunks isSpaceChar s []).filter (· ≠ ([] : Str))

/-- Split on `'\n'`, keeping empty chunks (`"a\nb" ↦ ["a","b"]`,
`"a\n" ↦ ["a",""]`). -/
def splitNl (s : Str) : List Str :=
  splitChunks (· == '\n') s []

/-- Python `str.splitlines()` for `\n`-terminated text: like `splitNl` but a
trailing newline does not produce a final empty line, and `"" ↦ []`. -/
def pySplitlines (s : Str) : List Str :=
  match s with
  | [] => []
  | _ =>
    if s.getLast? = some '\n' then (splitNl s).dropLast else splitNl s

/-- Python `str.rstrip(c)` for a single strip character: drop all trailing
occurrences of `c`. -/
def rstripChar (c : Char) (s : Str) : Str :=
  (s.reverse.dropWhile (· == c)).reverse

/-- Python `str.strip()` (whitespace on both ends). -/
def stripWs (s : Str) : Str :=
  ((s.dropWhile isSpaceChar).reverse.dropWhile isSpaceChar).reverse

/-! ### Python `int(...)` / `float(...)` and `round(...)` over `ℚ` -/

/-- Decimal digit run to a natural number. -/
def digitsToNat (s : Str) : ℕ :=
  s.foldl (fun a c => a * 10 + (c.toNat - 48)) 0

/-- Python `int(tok)` on a whitespace-free token: optional sign followed by a
non-empty digit run; `none` models a raised `ValueError`. -/
def parseInt (s : Str) : Option ℤ :=
  match s with
  | '-' :: rest =>
    if rest ≠ [] ∧ rest.all (·.isDigit) then some (-(digitsToNat rest : ℤ)) else none
  | '+' :: rest =>
    if rest ≠ [] ∧ rest.all (·.isDigit) then some (digitsToNat rest : ℤ) else none
  | _ =>
    if s ≠ [] ∧ s.all (·.isDigit) then some (digitsToNat s : ℤ) else none

/-- Unsigned decimal literal: digit run with an optional single `'.'` and at
least one digit overall (`"5."`, `".5"`, `"45"` are accepted, `"."`, `""`,
`"abc"` are not). -/
def parseUnsignedFloat (s : Str) : Option ℚ :=
  let intPart := s.takeWhile (·.isDigit)
  let rest := s.dropWhile (·.isDigit)
  match rest with
  | [] => if intPart ≠ [] then some (digitsToNat intPart : ℚ) else none
  | '.' :: frac =>
    if frac.all (·.isDigit) ∧ (intPart ≠ [] ∨ frac ≠ []) then
      some ((digitsToNat intPart : ℚ) + (digitsToNat frac : ℚ) / 10 ^ frac.length)
    else none
  | _ => none

/-- Python `float(tok)` on a whitespace-free token (decimal literals only;
`none` models a raised `ValueError`). -/
def parseFloat (s : Str) : Option ℚ :=
  match s with
  | '-' :: rest => (parseUnsignedFloat rest).map (fun q => -q)
  | '+' :: rest => parseUnsignedFloat rest
  | _ => parseUnsignedFloat s

/-- Round to the nearest integer, ties to even — the rounding used by Python's
builtin `round`. -/
def roundHalfEven (q : ℚ) : ℤ :=
  if q - ⌊q⌋ < 1 / 2 then ⌊q⌋
  else if q - ⌊q⌋ > 1 / 2 then ⌊q⌋ + 1
  else if ⌊q⌋ % 2 = 0 then ⌊q⌋ else ⌊q⌋ + 1

/-- Python `round(q, nd)` in exact decimal arithmetic. -/
def pyRound (q : ℚ) (nd : ℕ) : ℚ :=
  (roundHalfEven (q * 10 ^ nd) : ℚ) / 10 ^ nd

/-! ### Embedding of `custom_components/nanokvm/utils.py` -/

def schemeHttp : Str := "http://".data

def schemeHttps : Str := "https://".data

def apiSuffix : Str := "/api/".data

/-- Embedding of `utils.normalize_host`: prepend `http://` when no scheme is present, then
ensure the value ends in `/api/` (appending `api/` after an existing trailing
slash, `/api/` otherwise). -/
def normalize_host (host : Str) : Str :=
  let host1 := if schemeHttp <+: host ∨ schemeHttps <+: host then host else schemeHttp ++ host
  if apiSuffix <:+ host1 then host1
  else if host1.getLast? = some '/' then host1 ++ "api/".data
  else host1 ++ apiSuffix

/-! ### Embedding of `custom_components/nanokvm/ssh_metrics.py`

Timestamps are modelled as Unix epoch seconds (`ℤ`), tagged UTC: the code's
`dt_util.utc_from_timestamp n` is modelled as `n` itself. -/

/-- Error raised out of an SSH fetch: connection/authentication failure,
remote command failure, or a `ValueError` from `int(...)`/`float(...)` on
malformed output (`ParseError` in the spec's taxonomy). -/
inductive SshErr where
  | connErr : SshErr
  | cmdErr : SshErr
  | parseErr : SshErr
deriving DecidableEq, Repr

/-- The `{"total": …, "used_percent": …}` dictionaries returned by
`_fetch_memory` and `_fetch_storage`. -/
structure TotalUsedStats where
  total : Option ℚ
  used_percent : Option ℚ
deriving DecidableEq, Repr

/-- Model of `SSHMetricsSnapshot` (ssh_metrics.py): the record returned by `collect`. -/
structure SSHMetricsSnapshot where
  uptime : Option ℤ
  cpu_temperature : Option ℚ
  memory_total : Option ℚ
  memory_used_percent : Option ℚ
  storage_total : Option ℚ
  storage_used_percent : Option ℚ
deriving DecidableEq, Repr

instance {ε α : Type} [DecidableEq ε] [DecidableEq α] : DecidableEq (Except ε α) := fun a b =>
  match a, b with
  | .ok x, .ok y =>
    if h : x = y then .isTrue (by rw [h]) else .isFalse (fun hc => h (Except.ok.inj hc))
  | .ok _, .error _ => .isFalse (fun hc => Except.noConfusion hc)
  | .error _, .ok _ => .isFalse (fun hc => Except.noConfusion hc)
  | .error x, .error y =>
    if h : x = y then .isTrue (by rw [h]) else .isFalse (fun hc => h (Except.error.inj hc))

def btimeKey : Str := "btime".data

/-- The line loop of `_fetch_uptime`: return the epoch of the first line that
is exactly `btime <n>`; `int(...)` failure raises. -/
def scanBtime : List Str → Except SshErr (Option ℤ)
  | [] => .ok none
  | l :: rest =>
    match pySplit l with
    | [k, t] =>
      if k = btimeKey then
        match parseInt t with
        | some n => .ok (some n)
        | none => .error .parseErr
      else scanBtime rest
    | _ => scanBtime rest

/-- Embedding of `_fetch_uptime` applied to the raw `cat /proc/stat` output. -/
def fetch_uptime (raw : Str) : Except SshErr (Option ℤ) :=
  scanBtime (pySplitlines raw)

/-- Embedding of `_fetch_cpu_temperature` applied to the raw thermal-zone output:
`float(output.strip())`, divide by 1000 when over 1000, round to 1 decimal. -/
def fetch_cpu_temperature (raw : Str) : Except SshErr ℚ :=
  match parseFloat (stripWs raw) with
  | none => .error .parseErr
  | some v => .ok (pyRound (if v > 1000 then v / 1000 else v) 1)

def memTotalKey : Str := "MemTotal".data

def memAvailKey : Str := "MemAvailable".data

/-- The dictionary-building loop of `_fetch_memory`: every line with at least
two fields contributes `parts[0].rstrip(":") ↦ int(parts[1])`; a non-numeric
value raises. Insertion order is kept; later duplicates override (`dictGet`). -/
def memDictLines : List Str → Except SshErr (List (Str × ℤ))
  | [] => .ok []
  | l :: rest =>
    match pySplit l with
    | p0 :: p1 :: _ =>
      match parseInt p1 with
      | none => .error .parseErr
      | some v => (memDictLines rest).map (fun d => (rstripChar ':' p0, v) :: d)
    | _ => memDictLines rest

/-- Python-dict lookup on an insertion-ordered association list: the last
binding for a key wins. -/
def dictGet (k : Str) : List (Str × ℤ) → Option ℤ
  | [] => none
  | (k', v) :: rest =>
    match dictGet k rest with
    | some v' => some v'
    | none => if k' = k then some v else none

/-- Embedding of `_fetch_memory` applied to the raw `cat /proc/meminfo` output. -/
def fetch_memory (raw : Str) : Except SshErr TotalUsedStats :=
  match memDictLines (pySplitlines raw) with
  | .error e => .error e
  | .ok d =>
    match dictGet memTotalKey d with
    | none => .ok ⟨none, none⟩
    | some T =>
      let total := pyRound ((T : ℚ) / 1024) 2
      if total > 0 then
        match dictGet memAvailKey d with
        | some A =>
          let free := pyRound ((A : ℚ) / 1024) 2
          let used := pyRound (total - free) 2
          .ok ⟨some total, some (pyRound (used / total * 100) 2)⟩
        | none => .ok ⟨some total, none⟩
      else .ok ⟨some total, none⟩

/-- Embedding of `_fetch_storage` applied to the raw `df -k /` output: needs a header line
plus a data line with at least five fields; `total = int(parts[1])/1024`
rounded to 2 decimals, `used_percent = float(parts[4].rstrip("%"))`. -/
def fetch_storage (raw : Str) : Except SshErr TotalUsedStats :=
  match pySplitlines raw with
  | _ :: l1 :: _ =>
    match pySplit l1 with
    | _ :: p1 :: _ :: _ :: p4 :: _ =>
      match parseInt p1 with
      | none => .error .parseErr
      | some n =>
        match parseFloat (rstripChar '%' p4) with
        | none => .error .parseErr
        | some p => .ok ⟨some (pyRound ((n : ℚ) / 1024) 2), some p⟩
    | _ => .ok ⟨none, none⟩
  | _ => .ok ⟨none, none⟩

/-- Environment for one `SSHMetricsCollector.collect()` invocation: the
outcome of the (re)connect, and of each of the four remote commands. -/
structure SshEnv where
  connect : Option SshErr
  stat : Except SshErr Str
  temp : Except SshErr Str
  meminfo : Except SshErr Str
  df : Except SshErr Str
deriving Repr

/-- Embedding of `SSHMetricsCollector.collect()`: when the held session fails the liveness
check, authenticate; then run the four fetches sequentially.  There is no
per-fetch error containment: the first failure propagates out of `collect`. -/
def collectRun (connected : Bool) (env : SshEnv) : Except SshErr SSHMetricsSnapshot :=
  match (if connected then none else env.connect) with
  | some e => .error e
  | none =>
    match env.stat with
    | .error _ => .error .cmdErr
    | .ok statRaw =>
      match fetch_uptime statRaw with
      | .error e => .error e
      | .ok uptime =>
        match env.temp with
        | .error _ => .error .cmdErr
        | .ok tempRaw =>
          match fetch_cpu_temperature tempRaw with
          | .error e => .error e
          | .ok cpu =>
            match env.meminfo with
            | .error _ => .error .cmdErr
            | .ok memRaw =>
              match fetch_memory memRaw with
              | .error e => .error e
              | .ok mem =>
                match env.df with
                | .error _ => .error .cmdErr
                | .ok dfRaw =>
                  match fetch_storage dfRaw with
                  | .error e => .error e
                  | .ok sto =>
                    .ok ⟨uptime, some cpu, mem.total, mem.used_percent,
                         sto.total, sto.used_percent⟩

/-! ### Embedding of `custom_components/nanokvm/coordinator.py`

One call of `NanoKVMDataUpdateCoordinator._async_update_data` is modelled by
`updateData`.  The outcomes of all external calls made by the n-th body
attempt are supplied by the n-th `AttemptEnv` of a list; the outcomes of the
fresh `NanoKVMClient(...).authenticate` performed by the reauth handler are
supplied by a second list (the handler builds a brand-new client, so its
outcome is independent of the failed session).  Exception kinds follow the
spec's closed taxonomy; `NanoKVMAuthenticationFailure` and `NanoKVMApiError`
are modelled as distinct kinds (sibling classes in the client library). -/

/-- The exception kinds a client call can raise:
`NanoKVMAuthenticationFailure`, `aiohttp.ClientResponseError` (with HTTP
status), `NanoKVMApiError`, `aiohttp.ClientError`/`NanoKVMError`
(transport/protocol), `asyncio.TimeoutError`. -/
inductive ErrKind where
  | authFailure : ErrKind
  | respError (status : ℤ) : ErrKind
  | apiError : ErrKind
  | transportError : ErrKind
  | timeout : ErrKind
deriving DecidableEq, Repr

/-- Model of `GetInfoRsp`: only the `application` field is consulted by the
coordinator (reauth eligibility). -/
structure DeviceInfo where
  application : Str
deriving DecidableEq, Repr

/-- Model of `GetSSHStateRsp.enabled`. -/
structure SshState where
  enabled : Bool
deriving DecidableEq, Repr

/-- Model of `GetHidModeRsp.mode`. -/
structure HidMode where
  mode : Str
deriving DecidableEq, Repr

/-- Model of `GetMountedImageRsp.file`. -/
structure MountedImage where
  file : Str
deriving DecidableEq, Repr

/-- Model of `GetCdRomRsp.cdrom`. -/
structure CdRom where
  cdrom : ℤ
deriving DecidableEq, Repr

/-- The coordinator's mutable attributes (those the claims observe).  Data
values of endpoints whose content the coordinator never inspects are
abstracted to `ℤ`.  `token` models `self.client.token`; `collector_held`
models `self.ssh_metrics_collector is not None`; `collector_connected`
models the underlying SSH transport being connected. -/
structure CoordState where
  token : Bool
  device_info : DeviceInfo
  hostname_info : Option ℤ
  hardware_info : Option ℤ
  gpio_info : Option ℤ
  virtual_device_info : Option ℤ
  ssh_state : Option SshState
  mdns_state : Option ℤ
  hid_mode : Option HidMode
  oled_info : Option ℤ
  wifi_status : Option ℤ
  application_version_info : Option ℤ
  hdmi_state : Option ℤ
  mouse_jiggler_state : Option ℤ
  swap_size : Option ℤ
  tailscale_status : Option ℤ
  mounted_image : Option MountedImage
  cdrom_status : Option CdRom
  uptime : Option ℤ
  cpu_temperature : Option ℚ
  memory_total : Option ℚ
  memory_used_percent : Option ℚ
  storage_total : Option ℚ
  storage_used_percent : Option ℚ
  ssh_sensors_created : Bool
  collector_held : Bool
  collector_connected : Bool
deriving DecidableEq, Repr

/-- Outcomes of the external calls made by one body attempt of
`_async_update_data`, in source order.  `get_ssh_state` yields
`Option SshState` to mirror the truthiness test `if self.ssh_state and
self.ssh_state.enabled`. -/
structure AttemptEnv where
  authenticate : Option ErrKind
  get_info : Except ErrKind DeviceInfo
  get_hostname : Except ErrKind ℤ
  get_hardware : Except ErrKind ℤ
  get_gpio : Except ErrKind ℤ
  get_virtual_device_status : Except ErrKind ℤ
  get_ssh_state : Except ErrKind (Option SshState)
  get_mdns_state : Except ErrKind ℤ
  get_hid_mode : Except ErrKind HidMode
  get_oled_info : Except ErrKind ℤ
  get_wifi_status : Except ErrKind ℤ
  get_application_version : Except ErrKind ℤ
  get_hdmi_state : Except ErrKind ℤ
  get_mouse_jiggler_state : Except ErrKind ℤ
  get_swap_size : Except ErrKind ℤ
  get_tailscale_status : Except ErrKind ℤ
  get_mounted_image : Except ErrKind MountedImage
  get_cdrom_status : Except ErrKind CdRom
  ssh : SshEnv
deriving Repr

/-- The exception kinds caught by the two optional-endpoint `try` blocks:
`except (NanoKVMApiError, aiohttp.ClientResponseError)`. -/
def caughtOptional : ErrKind → Bool
  | .apiError => true
  | .respError _ => true
  | _ => false

/-- The exception kind caught by the two capability-gated `try` blocks:
`except NanoKVMApiError`. -/
def caughtApi : ErrKind → Bool
  | .apiError => true
  | _ => false

def normalModeStr : Str := "normal".data

def unknownStr : Str := "Unknown".data

/-- Embedding of `_async_update_ssh_data`: lazily create the collector, run `collect`; on
success copy all six metrics and mark the sensors created; on any exception
null only `uptime` and `cpu_temperature` and disconnect the collector
(the collector object itself is kept). -/
def updateSshData (st0 : CoordState) (ssh : SshEnv) : CoordState :=
  let st := if st0.collector_held then st0
            else { st0 with collector_held := true, collector_connected := false }
  match collectRun st.collector_connected ssh with
  | .ok m =>
    { st with uptime := m.uptime, cpu_temperature := m.cpu_temperature,
              memory_total := m.memory_total,
              memory_used_percent := m.memory_used_percent,
              storage_total := m.storage_total,
              storage_used_percent := m.storage_used_percent,
              ssh_sensors_created := true, collector_connected := true }
  | .error _ =>
    { st with uptime := none, cpu_temperature := none, collector_connected := false }

/-- Embedding of `_async_clear_ssh_data`: null all six metrics, reset the sensor flag, and
disconnect and drop any held collector. -/
def clearSshData (st0 : CoordState) : CoordState :=
  let st := { st0 with uptime := none, cpu_temperature := none,
                       memory_total := none, memory_used_percent := none,
                       storage_total := none, storage_used_percent := none,
                       ssh_sensors_created := false }
  if st.collector_held then
    { st with collector_connected := false, collector_held := false }
  else st

/-- The `if self.ssh_state and self.ssh_state.enabled` branch at the end of
the body. -/
def sshBranch (st : CoordState) (ssh : SshEnv) : CoordState :=
  match st.ssh_state with
  | some s => if s.enabled then updateSshData st ssh else clearSshData st
  | none => clearSshData st

/-- The `get_cdrom_status` fetch of the capability branch, then the SSH
branch and the successful return. -/
def cdromStep (st : CoordState) (env : AttemptEnv) : CoordState × Option ErrKind :=
  match env.get_cdrom_status with
  | .ok v => (sshBranch { st with cdrom_status := some v } env.ssh, none)
  | .error e =>
    if caughtApi e then (sshBranch { st with cdrom_status := some ⟨0⟩ } env.ssh, none)
    else (st, some e)

/-- The capability branch (`if self.hid_mode.mode == "normal"`); sentinels
`GetMountedImageRsp(file="")` / `GetCdRomRsp(cdrom=0)` on caught failure or
when the mode is not `"normal"`. -/
def capabilityBranch (st : CoordState) (env : AttemptEnv) (hm : HidMode) :
    CoordState × Option ErrKind :=
  if hm.mode = normalModeStr then
    match env.get_mounted_image with
    | .ok v => cdromStep { st with mounted_image := some v } env
    | .error e =>
      if caughtApi e then cdromStep { st with mounted_image := some ⟨[]⟩ } env
      else (st, some e)
  else
    (sshBranch { st with mounted_image := some ⟨[]⟩, cdrom_status := some ⟨0⟩ } env.ssh,
     none)

/-- Continuation of the body after the optional `get_application_version`
fetch: `get_hdmi_state`, `get_mouse_jiggler_state`, `get_swap_size`, the
optional `get_tailscale_status`, then the capability branch. -/
def runBodyAfterAppVersion (st0 : CoordState) (env : AttemptEnv) (hm : HidMode) :
    CoordState × Option ErrKind :=
  match env.get_hdmi_state with
  | .error e => (st0, some e)
  | .ok v =>
  let st := { st0 with hdmi_state := some v }
  match env.get_mouse_jiggler_state with
  | .error e => (st, some e)
  | .ok v =>
  let st := { st with mouse_jiggler_state := some v }
  match env.get_swap_size with
  | .error e => (st, some e)
  | .ok v =>
  let st := { st with swap_size := some v }
  match env.get_tailscale_status with
  | .error e =>
    if caughtOptional e then
      capabilityBranch { st with tailscale_status := none } env hm
    else (st, some e)
  | .ok v => capabilityBranch { st with tailscale_status := some v } env hm

/-- One body attempt of `_async_update_data` (the `try:` block, lines 94–164):
sequential fetches in source order, two optional fetches that catch
`(NanoKVMApiError, ClientResponseError)` and fall back to `None`, the
capability branch, the SSH branch, then success.  The returned state is the
mutated coordinator state; `some e` means the body raised `e` (partial
mutations kept, as in Python). -/
def runBody (st0 : CoordState) (env : AttemptEnv) : CoordState × Option ErrKind :=
  match (if st0.token then none else env.authenticate) with
  | some e => (st0, some e)
  | none =>
  let st := { st0 with token := true }
  match env.get_info with
  | .error e => (st, some e)
  | .ok v =>
  let st := { st with device_info := v }
  match env.get_hostname with
  | .error e => (st, some e)
  | .ok v =>
  let st := { st with hostname_info := some v }
  match env.get_hardware with
  | .error e => (st, some e)
  | .ok v =>
  let st := { st with hardware_info := some v }
  match env.get_gpio with
  | .error e => (st, some e)
  | .ok v =>
  let st := { st with gpio_info := some v }
  match env.get_virtual_device_status with
  | .error e => (st, some e)
  | .ok v =>
  let st := { st with virtual_device_info := some v }
  match env.get_ssh_state with
  | .error e => (st, some e)
  | .ok v =>
  let st := { st with ssh_state := v }
  match env.get_mdns_state with
  | .error e => (st, some e)
  | .ok v =>
  let st := { st with mdns_state := some v }
  match env.get_hid_mode with
  | .error e => (st, some e)
  | .ok hm =>
  let st := { st with hid_mode := some hm }
  match env.get_oled_info with
  | .error e => (st, some e)
  | .ok v =>
  let st := { st with oled_info := some v }
  match env.get_wifi_status with
  | .error e => (st, some e)
  | .ok v =>
  let st := { st with wifi_status := some v }
  match env.get_application_version with
  | .error e =>
    if caughtOptional e then
      runBodyAfterAppVersion { st with application_version_info := none } env hm
    else (st, some e)
  | .ok v => runBodyAfterAppVersion { st with application_version_info := some v } env hm

/-- Outcome of one coordinator tick: a published snapshot (the final
coordinator state, whose fields the returned dict mirrors) or `UpdateFailed`. -/
inductive UpdResult where
  | published (st : CoordState) : UpdResult
  | updateFailed : UpdResult
deriving DecidableEq, Repr

/-- The reauth-eligibility test on the caught exception:
`isinstance(err, NanoKVMAuthenticationFailure) or (isinstance(err,
aiohttp.ClientResponseError) and err.status == 401)`. -/
def isAuthKind : ErrKind → Bool
  | .authFailure => true
  | .respError s => s == 401
  | _ => false

/-- Embedding of `_async_update_data`, including the `except` handlers (lines 165–196).
`envs` supplies one `AttemptEnv` per body attempt; `reauths` supplies the
outcome of each fresh `NanoKVMClient(...).authenticate` performed by the
reauth handler (`none` = success).  The `ℕ` counts the full-cycle retries
performed by the recursion `return await self._async_update_data()`; Python's
unbounded recursion is modelled by fuel, and a fuel-exhausted or
under-supplied environment yields `none` (never hit by a terminating run).
The coordinator's `hasattr(self.device_info, "application")` is always true
here since `__init__` receives an object carrying `application` (either real
info or the `"Unknown"` placeholder built in `async_setup_entry`). -/
def updateData : ℕ → CoordState → List AttemptEnv → List (Option ErrKind) →
    Option (UpdResult × ℕ)
  | 0, _, _, _ => none
  | _ + 1, _, [], _ => none
  | fuel + 1, st, env :: envs, reauths =>
    match runBody st env with
    | (st', none) => some (.published st', 0)
    | (st', some e) =>
      if isAuthKind e ∧ st'.device_info.application ≠ unknownStr then
        match reauths with
        | [] => none
        | authRes :: reauths' =>
          match authRes with
          | some _ => some (.updateFailed, 0)
          | none =>
            match updateData fuel { st' with token := true } envs reauths' with
            | none => none
            | some (r, n) => some (r, n + 1)
      else some (.updateFailed, 0)

/-- Number of full-cycle retries a tick performed. -/
def resultRetries (r : Option (UpdResult × ℕ)) : Option ℕ :=
  r.map (·.2)

/-- Whether a tick ended in `UpdateFailed`. -/
def resultFailed (r : Option (UpdResult × ℕ)) : Option Bool :=
  r.map (fun x => match x.1 with | .updateFailed => true | .published _ => false)

/-! ### Concrete fixtures used by witnesses and counterexamples -/

/-- A coordinator state as after a successful setup: authenticated client,
previously known (non-placeholder) identity, no SSH collector held. -/
def baseState : CoordState :=
  { token := true, device_info := ⟨"NanoKVM".data⟩,
    hostname_info := none, hardware_info := none, gpio_info := none,
    virtual_device_info := none, ssh_state := none, mdns_state := none,
    hid_mode := none, oled_info := none, wifi_status := none,
    application_version_info := none, hdmi_state := none,
    mouse_jiggler_state := none, swap_size := none, tailscale_status := none,
    mounted_image := none, cdrom_status := none,
    uptime := none, cpu_temperature := none, memory_total := none,
    memory_used_percent := none, storage_total := none,
    storage_used_percent := none,
    ssh_sensors_created := false, collector_held := false,
    collector_connected := false }

/-- Variant of `baseState` with a held (but disconnected) SSH collector. -/
def heldState : CoordState :=
  { baseState with collector_held := true }

/-- An SSH environment whose first remote command fails. -/
def downSshEnv : SshEnv :=
  { connect := none, stat := .error .cmdErr, temp := .error .cmdErr,
    meminfo := .error .cmdErr, df := .error .cmdErr }

/-- An attempt in which every API call succeeds, the capability mode is not
`"normal"`, and the device reports the command channel absent. -/
def okEnv : AttemptEnv :=
  { authenticate := none,
    get_info := .ok ⟨"NanoKVM".data⟩, get_hostname := .ok 0,
    get_hardware := .ok 0, get_gpio := .ok 0,
    get_virtual_device_status := .ok 0,
    get_ssh_state := .ok none, get_mdns_state := .ok 0,
    get_hid_mode := .ok ⟨"hid-only".data⟩, get_oled_info := .ok 0,
    get_wifi_status := .ok 0, get_application_version := .ok 0,
    get_hdmi_state := .ok 0, get_mouse_jiggler_state := .ok 0,
    get_swap_size := .ok 0, get_tailscale_status := .ok 0,
    get_mounted_image := .ok ⟨[]⟩, get_cdrom_status := .ok ⟨0⟩,
    ssh := downSshEnv }

/-- Variant of `okEnv` with one required fetch failing with HTTP 401. -/
def env401 : AttemptEnv :=
  { okEnv with get_hostname := .error (.respError 401) }

/-- Variant of `okEnv` in `"normal"` capability mode with the mounted-image fetch
raising a response-layer error with HTTP status 500. -/
def env500 : AttemptEnv :=
  { okEnv with get_hid_mode := .ok ⟨normalModeStr⟩,
               get_mounted_image := .error (.respError 500) }

/-- Variant of `okEnv` with the optional app-version fetch raising `NanoKVMApiError`. -/
def envAppErr : AttemptEnv :=
  { okEnv with get_application_version := .error .apiError }

/-- Variant of `okEnv` with the device reporting the command channel enabled. -/
def envSshEnabled : AttemptEnv :=
  { okEnv with get_ssh_state := .ok (some ⟨true⟩) }

/-- SSH environment with a malformed thermal-zone reading but well-formed
boot-time, memory and storage outputs. -/
def envC3 : SshEnv :=
  { connect := none,
    stat := .ok "btime 1600000000".data,
    temp := .ok "abc".data,
    meminfo := .ok "MemTotal: 2048 kB\nMemAvailable: 1024 kB".data,
    df := .ok "Filesystem 1K-blocks Used Available Use% Mounted on\n/dev/root 2048 1024 1024 50% /".data }

/-- A second SSH environment with a malformed thermal-zone reading. -/
def envC3W : SshEnv :=
  { connect := none,
    stat := .ok "btime 7".data,
    temp := .ok "x".data,
    meminfo := .ok [],
    df := .ok [] }

/-- The memory example of the spec:
`MemTotal=1024000 kB, MemAvailable=512000 kB`. -/
def exMemRaw : Str := "MemTotal: 1024000 kB\nMemAvailable: 512000 kB".data

/-- The storage example of the spec: a header line plus
`/dev/root 1048576 524288 524288 50% /`. -/
def exStorageRaw : Str :=
  "Filesystem 1K-blocks Used Available Use% Mounted on\n/dev/root 1048576 524288 524288 50% /".data

/-- The uptime example of the spec: the line `btime 1700000000`. -/
def exStatRaw : Str := "btime 1700000000".data

/-- All the required endpoints that claims C2, C4 and C5 never vary,
succeeding with some value. -/
structure EnvOk (env : AttemptEnv) : Prop where
  info : ∃ v, env.get_info = .ok v
  hostname : ∃ v, env.get_hostname = .ok v
  hardware : ∃ v, env.get_hardware = .ok v
  gpio : ∃ v, env.get_gpio = .ok v
  virtual : ∃ v, env.get_virtual_device_status = .ok v
  mdns : ∃ v, env.get_mdns_state = .ok v
  oled : ∃ v, env.get_oled_info = .ok v
  wifi : ∃ v, env.get_wifi_status = .ok v
  hdmi : ∃ v, env.get_hdmi_state = .ok v
  jiggler : ∃ v, env.get_mouse_jiggler_state = .ok v
  swap : ∃ v, env.get_swap_size = .ok v

/-! ### Helper lemmas -/

theorem roundHalfEven_intCast (m : ℤ) : roundHalfEven (m : ℚ) = m := by
  unfold roundHalfEven
  rw [Int.floor_intCast]
  norm_num

theorem pyRound_eq_div (q : ℚ) (nd : ℕ) (m : ℤ) (h : q * 10 ^ nd = (m : ℚ)) :
    pyRound q nd = (m : ℚ) / 10 ^ nd := by
  unfold pyRound
  rw [h, roundHalfEven_intCast]

/-- Rounding a quantity that is already an exact multiple of `10 ^ (-nd)` is the
identity. -/
theorem pyRound_div_pow (m : ℤ) (nd : ℕ) :
    pyRound ((m : ℚ) / 10 ^ nd) nd = (m : ℚ) / 10 ^ nd := by
  have hb : (10 : ℚ) ^ nd ≠ 0 := by positivity
  exact pyRound_eq_div _ _ m (div_mul_cancel₀ _ hb)

theorem roundHalfEven_eq_of_lt (q : ℚ) (f : ℤ) (hf : ⌊q⌋ = f) (h : q - f < 1 / 2) :
    roundHalfEven q = f := by
  unfold roundHalfEven
  rw [hf, if_pos h]

theorem pyRound_eval_lt (q : ℚ) (nd : ℕ) (f : ℤ) (hf : ⌊q * 10 ^ nd⌋ = f)
    (h : q * 10 ^ nd - f < 1 / 2) : pyRound q nd = (f : ℚ) / 10 ^ nd := by
  unfold pyRound
  rw [roundHalfEven_eq_of_lt _ _ hf h]

/-- The difference of two `nd`-decimal roundings is exact, so rounding it
again to `nd` decimals is the identity (this is why the extra inner
`round(total - free, 2)` of `_fetch_memory` is a no-op in exact
arithmetic). -/
theorem pyRound_sub_pyRound (x y : ℚ) (nd : ℕ) :
    pyRound (pyRound x nd - pyRound y nd) nd = pyRound x nd - pyRound y nd := by
  have h : pyRound x nd - pyRound y nd
      = ((roundHalfEven (x * 10 ^ nd) - roundHalfEven (y * 10 ^ nd) : ℤ) : ℚ) / 10 ^ nd := by
    unfold pyRound
    push_cast
    ring
  rw [h, pyRound_div_pow]

/-! ### Claim theorems -/

/-- C7: the temperature parser divides the parsed value by 1000 exactly when
it exceeds 1000 (millidegree normalisation), otherwise leaves it unscaled,
and rounds the result to 1 decimal. -/
theorem C7_temperature_scaling (s : Str) (v : ℚ)
    (hv : parseFloat (stripWs s) = some v) :
    (v > 1000 → fetch_cpu_temperature s = .ok (pyRound (v / 1000) 1)) ∧
    (¬ v > 1000 → fetch_cpu_temperature s = .ok (pyRound v 1)) := by
  constructor
  · intro h
    simp only [fetch_cpu_temperature, hv]
    rw [if_pos h]
  · intro h
    simp only [fetch_cpu_temperature, hv]
    rw [if_neg h]

/-- C7 witness: `"45123"` parses to `45.1` and `"45"` to `45.0`. -/
theorem C7_temperature_scaling_witness :
    fetch_cpu_temperature "45123".data = .ok (451 / 10) ∧
    fetch_cpu_temperature "45".data = .ok 45 := by
  constructor
  · have h := (C7_temperature_scaling "45123".data 45123 rfl).1 (by norm_num)
    rw [h, pyRound_eval_lt ((45123 : ℚ) / 1000) 1 451 (by norm_num) (by norm_num)]
    norm_num
  · have h := (C7_temperature_scaling "45".data 45 rfl).2 (by norm_num)
    rw [h, pyRound_eval_lt (45 : ℚ) 1 450 (by norm_num) (by norm_num)]
    norm_num

/-- C6: the memory parser returns `total = MemTotal/1024` rounded to 2
decimals; when `MemAvailable` is present and `total > 0` it returns
`used_percent = (total_MB − MemAvailable_MB) / total_MB × 100` rounded to 2
decimals (with `MemAvailable_MB = MemAvailable/1024` at 2 decimals, like
`total`); otherwise `used_percent` is null. -/
theorem C6_memory_formulas (s : Str) (d : List (Str × ℤ)) (T : ℤ)
    (hd : memDictLines (pySplitlines s) = .ok d)
    (hT : dictGet memTotalKey d = some T) :
    (∀ A, dictGet memAvailKey d = some A → pyRound ((T : ℚ) / 1024) 2 > 0 →
      fetch_memory s = .ok ⟨some (pyRound ((T : ℚ) / 1024) 2),
        some (pyRound ((pyRound ((T : ℚ) / 1024) 2 - pyRound ((A : ℚ) / 1024) 2)
              / pyRound ((T : ℚ) / 1024) 2 * 100) 2)⟩) ∧
    (dictGet memAvailKey d = none →
      fetch_memory s = .ok ⟨some (pyRound ((T : ℚ) / 1024) 2), none⟩) ∧
    (¬ pyRound ((T : ℚ) / 1024) 2 > 0 →
      fetch_memory s = .ok ⟨some (pyRound ((T : ℚ) / 1024) 2), none⟩) := by
  refine ⟨fun A hA hpos => ?_, fun hA => ?_, fun hpos => ?_⟩
  · simp only [fetch_memory, hd, hT, hA]
    rw [if_pos hpos, pyRound_sub_pyRound]
  · simp only [fetch_memory, hd, hT, hA]
    by_cases hpos : pyRound ((T : ℚ) / 1024) 2 > 0
    · rw [if_pos hpos]
    · rw [if_neg hpos]
  · simp only [fetch_memory, hd, hT]
    rw [if_neg hpos]

/-- C6 witness: `MemTotal=1024000 kB, MemAvailable=512000 kB` yields
`total = 1000.0` and `used_percent = 50.0`. -/
theorem C6_memory_formulas_witness :
    fetch_memory exMemRaw = .ok ⟨some 1000, some 50⟩ := by
  have e1 : pyRound ((1024000 : ℤ) / 1024 : ℚ) 2 = 1000 := by
    rw [pyRound_eq_div _ _ 100000 (by norm_num)]
    norm_num
  have e2 : pyRound ((512000 : ℤ) / 1024 : ℚ) 2 = 500 := by
    rw [pyRound_eq_div _ _ 50000 (by norm_num)]
    norm_num
  have h := (C6_memory_formulas exMemRaw
      [(memTotalKey, 1024000), (memAvailKey, 512000)] 1024000 rfl rfl).1
      512000 rfl (by rw [e1]; norm_num)
  rw [h, e1, e2]
  have e3 : pyRound (((1000 : ℚ) - 500) / 1000 * 100) 2 = 50 := by
    rw [show ((1000 : ℚ) - 500) / 1000 * 100 = 50 by norm_num,
        pyRound_eq_div _ _ 5000 (by norm_num)]
    norm_num
  rw [e3]

/-- C8: the storage parser needs a header line plus a data line with at least
five whitespace-separated fields; then `total = field1_kB/1024` rounded to 2
decimals and `used_percent = float(field4.rstrip("%"))`; with fewer lines or
fewer fields both results are null. -/
theorem C8_storage_parse (s : Str) :
    ((pySplitlines s).length < 2 ∨
        (pySplit ((pySplitlines s).getD 1 [])).length < 5 →
      fetch_storage s = .ok ⟨none, none⟩) ∧
    (∀ p0 p1 p2 p3 p4 rest n p,
      pySplit ((pySplitlines s).getD 1 []) = p0 :: p1 :: p2 :: p3 :: p4 :: rest →
      2 ≤ (pySplitlines s).length →
      parseInt p1 = some n → parseFloat (rstripChar '%' p4) = some p →
      fetch_storage s = .ok ⟨some (pyRound ((n : ℚ) / 1024) 2), some p⟩) := by
  constructor
  · intro h
    rcases hls : pySplitlines s with _ | ⟨l0, _ | ⟨l1, lrest⟩⟩
    · simp only [fetch_storage, hls]
    · simp only [fetch_storage, hls]
    · rw [hls] at h
      rcases h with h | h
      · simp only [List.length_cons] at h
        omega
      · simp only [List.getD_cons_succ, List.getD_cons_zero] at h
        rcases hp : pySplit l1 with _ | ⟨a, _ | ⟨b, _ | ⟨c, _ | ⟨d4, _ | ⟨e5, prest⟩⟩⟩⟩⟩ <;>
          simp only [fetch_storage, hls, hp]
        · rw [hp] at h
          simp only [List.length_cons] at h
          omega
  · intro p0 p1 p2 p3 p4 rest n p hp hlen hn hfl
    rcases hls : pySplitlines s with _ | ⟨l0, _ | ⟨l1, lrest⟩⟩
    · rw [hls] at hlen; simp at hlen
    · rw [hls] at hlen; simp at hlen
    · rw [hls] at hp
      simp only [List.getD_cons_succ, List.getD_cons_zero] at hp
      simp only [fetch_storage, hls, hp, hn, hfl]

/-- C8 witness: a header plus `/dev/root 1048576 524288 524288 50% /` yields
`total = 1024.0` and `used_percent = 50.0`. -/
theorem C8_storage_parse_witness :
    fetch_storage exStorageRaw = .ok ⟨some 1024, some 50⟩ := by
  have h := (C8_storage_parse exStorageRaw).2 "/dev/root".data "1048576".data
      "524288".data "524288".data "50%".data [ "/".data] 1048576 50 (by decide) (by decide)
      (by decide) (by decide)
  rw [h, pyRound_eq_div _ _ 102400 (by norm_num)]
  norm_num

/-- C9: the uptime parser returns null on every input without a `btime` line,
and returns the Unix-epoch UTC timestamp of the second token of the first
`btime <n>` line otherwise. -/
theorem C9_uptime_btime (s : Str) :
    ((∀ l ∈ pySplitlines s, (pySplit l).head? ≠ some btimeKey) →
      fetch_uptime s = .ok none) ∧
    (∀ pre l post t n, pySplitlines s = pre ++ l :: post →
      (∀ l' ∈ pre, ¬ ∃ t', pySplit l' = [btimeKey, t']) →
      pySplit l = [btimeKey, t] → parseInt t = some n →
      fetch_uptime s = .ok (some n)) := by
  constructor
  · have main : ∀ L : List Str,
        (∀ l ∈ L, (pySplit l).head? ≠ some btimeKey) → scanBtime L = .ok none := by
      intro L
      induction L with
      | nil => intro _; rfl
      | cons l rest ih =>
        intro h
        have hrest := ih (fun x hx => h x (List.mem_cons_of_mem _ hx))
        have hl := h l (List.mem_cons_self _ _)
        rcases hp : pySplit l with _ | ⟨k, _ | ⟨t, _ | ⟨u, r2⟩⟩⟩ <;>
          simp only [scanBtime, hp] <;> try exact hrest
        rw [hp] at hl
        simp only [List.head?] at hl
        rw [if_neg (fun he => hl (by rw [he]))]
        exact hrest
    intro h
    exact main _ h
  · have main : ∀ (pre : List Str) (l : Str) (post : List Str) (t : Str) (n : ℤ),
        (∀ l' ∈ pre, ¬ ∃ t', pySplit l' = [btimeKey, t']) →
        pySplit l = [btimeKey, t] → parseInt t = some n →
        scanBtime (pre ++ l :: post) = .ok (some n) := by
      intro pre
      induction pre with
      | nil =>
        intro l post t n _ hl hn
        simp only [List.nil_append, scanBtime, hl, if_pos rfl, hn, if_true]
      | cons l' pre' ih =>
        intro l post t n hpre hl hn
        have hrest := ih l post t n
            (fun x hx => hpre x (List.mem_cons_of_mem _ hx)) hl hn
        have hl' := hpre l' (List.mem_cons_self _ _)
        rcases hp : pySplit l' with _ | ⟨k, _ | ⟨t2, _ | ⟨u, r2⟩⟩⟩ <;>
          simp only [List.cons_append, scanBtime, hp] <;> try exact hrest
        rw [hp] at hl'
        rw [if_neg (fun he => hl' ⟨t2, by rw [he]⟩)]
        exact hrest
    intro pre l post t n hs hpre hl hn
    unfold fetch_uptime
    rw [hs]
    exact main pre l post t n hpre hl hn

/-- C9 witness: the line `btime 1700000000` yields the UTC timestamp at epoch
second 1700000000. -/
theorem C9_uptime_btime_witness :
    fetch_uptime exStatRaw = .ok (some 1700000000) := by
  exact (C9_uptime_btime exStatRaw).2 [] exStatRaw [] "1700000000".data 1700000000
    (by decide) (by intro l' hl'; simp at hl') (by decide) (by decide)

theorem normalize_host_scheme (h : Str) :
    schemeHttp <+: normalize_host h ∨ schemeHttps <+: normalize_host h := by
  simp only [normalize_host]
  have step2 : ∀ s : Str, (schemeHttp <+: s ∨ schemeHttps <+: s) →
      (schemeHttp <+: (if apiSuffix <:+ s then s
        else if s.getLast? = some '/' then s ++ "api/".data else s ++ apiSuffix) ∨
       schemeHttps <+: (if apiSuffix <:+ s then s
        else if s.getLast? = some '/' then s ++ "api/".data else s ++ apiSuffix)) := by
    intro s hp
    by_cases h2 : apiSuffix <:+ s
    · rw [if_pos h2]; exact hp
    · rw [if_neg h2]
      by_cases h3 : s.getLast? = some '/'
      · rw [if_pos h3]
        rcases hp with hp | hp
        · exact .inl (hp.trans (List.prefix_append _ _))
        · exact .inr (hp.trans (List.prefix_append _ _))
      · rw [if_neg h3]
        rcases hp with hp | hp
        · exact .inl (hp.trans (List.prefix_append _ _))
        · exact .inr (hp.trans (List.prefix_append _ _))
  by_cases h1 : schemeHttp <+: h ∨ schemeHttps <+: h
  · rw [if_pos h1]
    exact step2 h h1
  · rw [if_neg h1]
    exact step2 _ (.inl (List.prefix_append _ _))

theorem normalize_host_api (h : Str) : apiSuffix <:+ normalize_host h := by
  simp only [normalize_host]
  have step2 : ∀ s : Str, apiSuffix <:+ (if apiSuffix <:+ s then s
      else if s.getLast? = some '/' then s ++ "api/".data else s ++ apiSuffix) := by
    intro s
    by_cases h2 : apiSuffix <:+ s
    · rw [if_pos h2]; exact h2
    · rw [if_neg h2]
      by_cases h3 : s.getLast? = some '/'
      · rw [if_pos h3]
        have hne : s ≠ [] := by
          intro he
          rw [he] at h3
          simp at h3
        have hg : s.getLast hne = '/' := by
          have hq := List.getLast?_eq_getLast s hne
          exact Option.some.inj (hq.symm.trans h3)
        have hsplit : s.dropLast ++ ['/'] = s := by
          rw [← hg]
          exact List.dropLast_append_getLast hne
        rw [← hsplit, List.append_assoc]
        exact List.suffix_append _ _
      · rw [if_neg h3]
        exact List.suffix_append _ _
  by_cases h1 : schemeHttp <+: h ∨ schemeHttps <+: h
  · rw [if_pos h1]; exact step2 h
  · rw [if_neg h1]; exact step2 _

theorem normalize_host_fixed (s : Str)
    (hp : schemeHttp <+: s ∨ schemeHttps <+: s) (hs : apiSuffix <:+ s) :
    normalize_host s = s := by
  simp only [normalize_host]
  rw [if_pos hp, if_pos hs]

/-- C10: `normalize_host` is idempotent, and its result always starts with
`http://` or `https://` and ends with `/api/`. -/
theorem C10_normalize_host_idempotent (h : Str) :
    normalize_host (normalize_host h) = normalize_host h ∧
    (schemeHttp <+: normalize_host h ∨ schemeHttps <+: normalize_host h) ∧
    apiSuffix <:+ normalize_host h :=
  ⟨normalize_host_fixed _ (normalize_host_scheme h) (normalize_host_api h),
   normalize_host_scheme h, normalize_host_api h⟩

/-- C3 counterexample: with a malformed thermal-zone reading but well-formed
boot-time, memory and storage outputs, `collect` raises and reports no
metrics at all, although each of the other three parsers succeeds on its own
output — one failing read suppresses the other three. -/
theorem C3_counterexample_first_failure_suppresses :
    collectRun true envC3 = .error .parseErr ∧
    fetch_uptime "btime 1600000000".data = .ok (some 1600000000) ∧
    fetch_memory "MemTotal: 2048 kB\nMemAvailable: 1024 kB".data =
      .ok ⟨some 2, some 50⟩ ∧
    fetch_storage "Filesystem 1K-blocks Used Available Use% Mounted on\n/dev/root 2048 1024 1024 50% /".data =
      .ok ⟨some 2, some 50⟩ := by
  refine ⟨rfl, by decide, ?_, ?_⟩
  · have hd : memDictLines
        (pySplitlines "MemTotal: 2048 kB\nMemAvailable: 1024 kB".data) =
        .ok [(memTotalKey, 2048), (memAvailKey, 1024)] := by decide
    have h1 : dictGet memTotalKey [(memTotalKey, 2048), (memAvailKey, 1024)] =
        some 2048 := by decide
    have h2 : dictGet memAvailKey [(memTotalKey, 2048), (memAvailKey, 1024)] =
        some 1024 := by decide
    have e1 : pyRound (((2048 : ℤ) : ℚ) / 1024) 2 = 2 := by
      rw [pyRound_eq_div _ _ 200 (by norm_num)]
      norm_num
    have e2 : pyRound (((1024 : ℤ) : ℚ) / 1024) 2 = 1 := by
      rw [pyRound_eq_div _ _ 100 (by norm_num)]
      norm_num
    simp only [fetch_memory, hd, h1, h2, e1, e2]
    rw [if_pos (by norm_num : (2 : ℚ) > 0)]
    have e3 : pyRound ((2 : ℚ) - 1) 2 = 1 := by
      rw [pyRound_eq_div _ _ 100 (by norm_num)]
      norm_num
    rw [e3]
    have e4 : pyRound ((1 : ℚ) / 2 * 100) 2 = 50 := by
      rw [pyRound_eq_div _ _ 5000 (by norm_num)]
      norm_num
    rw [e4]
  · have hl : pySplitlines "Filesystem 1K-blocks Used Available Use% Mounted on\n/dev/root 2048 1024 1024 50% /".data =
        [ "Filesystem 1K-blocks Used Available Use% Mounted on".data,
         "/dev/root 2048 1024 1024 50% /".data] := by decide
    have hp : pySplit "/dev/root 2048 1024 1024 50% /".data =
        [ "/dev/root".data, "2048".data, "1024".data, "1024".data, "50%".data,
         "/".data] := by decide
    have hn : parseInt "2048".data = some 2048 := by decide
    have hf : parseFloat (rstripChar '%' "50%".data) = some 50 := by decide
    simp only [fetch_storage, hl, hp, hn, hf]
    have e1 : pyRound (((2048 : ℤ) : ℚ) / 1024) 2 = 2 := by
      rw [pyRound_eq_div _ _ 200 (by norm_num)]
      norm_num
    rw [e1]

/-- C3 (amended): the four reads of `collect` run sequentially with no
per-read containment — the first read whose command fails or whose output is
malformed aborts the whole collection, so no metrics at all are reported for
that invocation; in particular a thermal-zone parse error suppresses the
memory and storage metrics regardless of their own outputs. -/
theorem C3_first_failure_aborts (connected : Bool) (env : SshEnv) (sr tr : Str)
    (u : Option ℤ) (e : SshErr)
    (hc : connected = true)
    (hstat : env.stat = .ok sr) (hu : fetch_uptime sr = .ok u)
    (htemp : env.temp = .ok tr) (he : fetch_cpu_temperature tr = .error e) :
    collectRun connected env = .error e := by
  simp only [collectRun, hc, hstat, hu, htemp, he, if_true]

/-- C3 witness: a malformed thermal reading aborts collection. -/
theorem C3_first_failure_aborts_witness :
    collectRun true envC3W = .error .parseErr :=
  C3_first_failure_aborts true envC3W "btime 7".data "x".data (some 7) .parseErr
    rfl rfl (by decide) rfl (by decide)

theorem clearSshData_untouched_fields (st : CoordState) :
    (clearSshData st).application_version_info = st.application_version_info ∧
    (clearSshData st).tailscale_status = st.tailscale_status ∧
    (clearSshData st).mounted_image = st.mounted_image ∧
    (clearSshData st).cdrom_status = st.cdrom_status := by
  refine ⟨?_, ?_, ?_, ?_⟩ <;> (simp only [clearSshData]; split <;> rfl)

/-- C2 (amended): with every other fetch succeeding, `NanoKVMApiError` and
response-layer (`ClientResponseError`) failures of the two optional fetches
(app-version, tailscale status) are caught at the call site, resolve the
field to null and let the cycle complete; `NanoKVMApiError` failures of the
two capability-gated fetches (mounted-image, cdrom-status, attempted only in
`"normal"` capability mode) resolve the field to its non-null empty sentinel
and let the cycle complete; outside `"normal"` mode both fields are set to
the sentinels with no fetch attempted.  (Other error kinds — authentication,
transport, timeout, and for the capability-gated fetches also response-layer
errors — are not caught there and abort the cycle.) -/
theorem C2_optional_capability_containment :
    (∀ st env e m tv, st.token = true → EnvOk env →
      env.get_ssh_state = .ok none → env.get_hid_mode = .ok ⟨m⟩ →
      m ≠ normalModeStr → env.get_tailscale_status = .ok tv →
      env.get_application_version = .error e → caughtOptional e = true →
      (runBody st env).2 = none ∧
      (runBody st env).1.application_version_info = none) ∧
    (∀ st env e m av, st.token = true → EnvOk env →
      env.get_ssh_state = .ok none → env.get_hid_mode = .ok ⟨m⟩ →
      m ≠ normalModeStr → env.get_application_version = .ok av →
      env.get_tailscale_status = .error e → caughtOptional e = true →
      (runBody st env).2 = none ∧
      (runBody st env).1.tailscale_status = none) ∧
    (∀ st env e av tv cv, st.token = true → EnvOk env →
      env.get_ssh_state = .ok none → env.get_hid_mode = .ok ⟨normalModeStr⟩ →
      env.get_application_version = .ok av → env.get_tailscale_status = .ok tv →
      env.get_mounted_image = .error e → caughtApi e = true →
      env.get_cdrom_status = .ok cv →
      (runBody st env).2 = none ∧
      (runBody st env).1.mounted_image = some ⟨[]⟩) ∧
    (∀ st env e av tv mv, st.token = true → EnvOk env →
      env.get_ssh_state = .ok none → env.get_hid_mode = .ok ⟨normalModeStr⟩ →
      env.get_application_version = .ok av → env.get_tailscale_status = .ok tv →
      env.get_mounted_image = .ok mv → env.get_cdrom_status = .error e →
      caughtApi e = true →
      (runBody st env).2 = none ∧
      (runBody st env).1.cdrom_status = some ⟨0⟩) ∧
    (∀ st env m av tv, st.token = true → EnvOk env →
      env.get_ssh_state = .ok none → env.get_hid_mode = .ok ⟨m⟩ →
      m ≠ normalModeStr → env.get_application_version = .ok av →
      env.get_tailscale_status = .ok tv →
      (runBody st env).2 = none ∧
      (runBody st env).1.mounted_image = some ⟨[]⟩ ∧
      (runBody st env).1.cdrom_status = some ⟨0⟩) := by
  refine ⟨?_, ?_, ?_, ?_, ?_⟩
  · intro st env e m tv htok henv hssh hhid hm hts happ hce
    obtain ⟨⟨vi, hi⟩, ⟨v1, h1⟩, ⟨v2, h2⟩, ⟨v3, h3⟩, ⟨v4, h4⟩, ⟨v5, h5⟩, ⟨v6, h6⟩,
        ⟨v7, h7⟩, ⟨v8, h8⟩, ⟨v9, h9⟩, ⟨v10, h10⟩⟩ := henv
    simp only [runBody, runBodyAfterAppVersion, capabilityBranch, sshBranch,
      htok, hi, h1, h2, h3, h4, h5, h6, h7, h8, h9, h10, hssh, hhid, hts, happ,
      hce, if_true, if_neg hm, eq_self_iff_true]
    exact ⟨trivial, ((clearSshData_untouched_fields _).1).trans rfl⟩
  · intro st env e m av htok henv hssh hhid hm happ hts hce
    obtain ⟨⟨vi, hi⟩, ⟨v1, h1⟩, ⟨v2, h2⟩, ⟨v3, h3⟩, ⟨v4, h4⟩, ⟨v5, h5⟩, ⟨v6, h6⟩,
        ⟨v7, h7⟩, ⟨v8, h8⟩, ⟨v9, h9⟩, ⟨v10, h10⟩⟩ := henv
    simp only [runBody, runBodyAfterAppVersion, capabilityBranch, sshBranch,
      htok, hi, h1, h2, h3, h4, h5, h6, h7, h8, h9, h10, hssh, hhid, hts, happ,
      hce, if_true, if_neg hm, eq_self_iff_true]
    exact ⟨trivial, ((clearSshData_untouched_fields _).2.1).trans rfl⟩
  · intro st env e av tv cv htok henv hssh hhid happ hts hmnt hce hcd
    obtain ⟨⟨vi, hi⟩, ⟨v1, h1⟩, ⟨v2, h2⟩, ⟨v3, h3⟩, ⟨v4, h4⟩, ⟨v5, h5⟩, ⟨v6, h6⟩,
        ⟨v7, h7⟩, ⟨v8, h8⟩, ⟨v9, h9⟩, ⟨v10, h10⟩⟩ := henv
    simp only [runBody, runBodyAfterAppVersion, capabilityBranch, cdromStep,
      sshBranch, htok, hi, h1, h2, h3, h4, h5, h6, h7, h8, h9, h10, hssh, hhid,
      hts, happ, hmnt, hce, hcd, if_true, eq_self_iff_true]
    exact ⟨trivial, ((clearSshData_untouched_fields _).2.2.1).trans rfl⟩
  · intro st env e av tv mv htok henv hssh hhid happ hts hmnt hcd hce
    obtain ⟨⟨vi, hi⟩, ⟨v1, h1⟩, ⟨v2, h2⟩, ⟨v3, h3⟩, ⟨v4, h4⟩, ⟨v5, h5⟩, ⟨v6, h6⟩,
        ⟨v7, h7⟩, ⟨v8, h8⟩, ⟨v9, h9⟩, ⟨v10, h10⟩⟩ := henv
    simp only [runBody, runBodyAfterAppVersion, capabilityBranch, cdromStep,
      sshBranch, htok, hi, h1, h2, h3, h4, h5, h6, h7, h8, h9, h10, hssh, hhid,
      hts, happ, hmnt, hcd, hce, if_true, eq_self_iff_true]
    exact ⟨trivial, ((clearSshData_untouched_fields _).2.2.2).trans rfl⟩
  · intro st env m av tv htok henv hssh hhid hm happ hts
    obtain ⟨⟨vi, hi⟩, ⟨v1, h1⟩, ⟨v2, h2⟩, ⟨v3, h3⟩, ⟨v4, h4⟩, ⟨v5, h5⟩, ⟨v6, h6⟩,
        ⟨v7, h7⟩, ⟨v8, h8⟩, ⟨v9, h9⟩, ⟨v10, h10⟩⟩ := henv
    simp only [runBody, runBodyAfterAppVersion, capabilityBranch, sshBranch,
      htok, hi, h1, h2, h3, h4, h5, h6, h7, h8, h9, h10, hssh, hhid, hts, happ,
      if_true, if_neg hm, eq_self_iff_true]
    exact ⟨trivial, ((clearSshData_untouched_fields _).2.2.1).trans rfl,
      ((clearSshData_untouched_fields _).2.2.2).trans rfl⟩

/-- C2 counterexample: a response-layer error (HTTP 500) raised by the
capability-gated mounted-image fetch is not caught at the call site — it
propagates to cycle level and the tick fails — contradicting the claim that
errors of the capability-gated fetches resolve to the empty sentinel and
never propagate. -/
theorem C2_counterexample_resp_error_propagates :
    (runBody baseState env500).2 = some (.respError 500) ∧
    resultFailed (updateData 1 baseState [env500] []) = some true :=
  ⟨rfl, rfl⟩

/-- C2 witness: an `NanoKVMApiError` on the optional app-version fetch is
caught, nulls the field, and the cycle completes. -/
theorem C2_optional_capability_containment_witness :
    (runBody baseState envAppErr).2 = none ∧
    (runBody baseState envAppErr).1.application_version_info = none :=
  C2_optional_capability_containment.1 baseState envAppErr .apiError
    "hid-only".data 0 rfl
    ⟨⟨_, rfl⟩, ⟨_, rfl⟩, ⟨_, rfl⟩, ⟨_, rfl⟩, ⟨_, rfl⟩, ⟨_, rfl⟩,
     ⟨_, rfl⟩, ⟨_, rfl⟩, ⟨_, rfl⟩, ⟨_, rfl⟩, ⟨_, rfl⟩⟩
    rfl rfl (by decide) rfl rfl rfl

/-- C4: when the device reports the command channel enabled and `collect`
raises, exactly `uptime` and `cpu_temperature` are set to null, the held
command-channel session is disconnected (the collector object is kept), all
other coordinator fields — including the four memory/storage metrics — keep
their previous values, and the cycle still completes and publishes. -/
theorem C4_collect_error_nulls_only_timing :
    (∀ st ssh e, st.collector_held = true →
      collectRun st.collector_connected ssh = .error e →
      updateSshData st ssh =
        { st with uptime := none, cpu_temperature := none,
                  collector_connected := false }) ∧
    (∀ st env m av tv e, st.token = true → st.collector_held = true → EnvOk env →
      env.get_ssh_state = .ok (some ⟨true⟩) → env.get_hid_mode = .ok ⟨m⟩ →
      m ≠ normalModeStr → env.get_application_version = .ok av →
      env.get_tailscale_status = .ok tv →
      collectRun st.collector_connected env.ssh = .error e →
      (runBody st env).2 = none ∧
      (runBody st env).1.uptime = none ∧
      (runBody st env).1.cpu_temperature = none ∧
      (runBody st env).1.collector_connected = false ∧
      (runBody st env).1.collector_held = true ∧
      (runBody st env).1.memory_total = st.memory_total ∧
      (runBody st env).1.memory_used_percent = st.memory_used_percent ∧
      (runBody st env).1.storage_total = st.storage_total ∧
      (runBody st env).1.storage_used_percent = st.storage_used_percent) := by
  constructor
  · intro st ssh e hheld herr
    simp only [updateSshData, hheld, eq_self_iff_true, if_true, herr]
  · intro st env m av tv e htok hheld henv hssh hhid hm happ hts herr
    obtain ⟨⟨vi, hi⟩, ⟨v1, h1⟩, ⟨v2, h2⟩, ⟨v3, h3⟩, ⟨v4, h4⟩, ⟨v5, h5⟩, ⟨v6, h6⟩,
        ⟨v7, h7⟩, ⟨v8, h8⟩, ⟨v9, h9⟩, ⟨v10, h10⟩⟩ := henv
    simp only [runBody, runBodyAfterAppVersion, capabilityBranch, sshBranch,
      updateSshData, htok, hheld, hi, h1, h2, h3, h4, h5, h6, h7, h8, h9, h10,
      hssh, hhid, hts, happ, herr, if_true, if_neg hm, eq_self_iff_true]
    exact ⟨trivial, trivial, trivial, trivial, trivial, trivial, trivial,
      trivial, trivial⟩

/-- C4 witness: a failing collect on an enabled channel nulls only the two
timing/temperature fields, disconnects the held session, leaves the four
memory/storage fields untouched and publishes. -/
theorem C4_collect_error_nulls_only_timing_witness :
    (runBody heldState envSshEnabled).2 = none ∧
    (runBody heldState envSshEnabled).1.uptime = none ∧
    (runBody heldState envSshEnabled).1.cpu_temperature = none ∧
    (runBody heldState envSshEnabled).1.collector_connected = false ∧
    (runBody heldState envSshEnabled).1.collector_held = true ∧
    (runBody heldState envSshEnabled).1.memory_total = none ∧
    (runBody heldState envSshEnabled).1.memory_used_percent = none ∧
    (runBody heldState envSshEnabled).1.storage_total = none ∧
    (runBody heldState envSshEnabled).1.storage_used_percent = none :=
  C4_collect_error_nulls_only_timing.2 heldState envSshEnabled
    "hid-only".data 0 0 .cmdErr rfl rfl
    ⟨⟨_, rfl⟩, ⟨_, rfl⟩, ⟨_, rfl⟩, ⟨_, rfl⟩, ⟨_, rfl⟩, ⟨_, rfl⟩,
     ⟨_, rfl⟩, ⟨_, rfl⟩, ⟨_, rfl⟩, ⟨_, rfl⟩, ⟨_, rfl⟩⟩
    rfl rfl (by decide) rfl rfl rfl

/-- C5: when the device reports the command channel disabled (flag false) or
absent, all six secondary-metric fields are explicitly nulled — regardless of
their previous values — the sensor flag is reset, and any held
command-channel session is disconnected and dropped. -/
theorem C5_channel_disabled_clears_all :
    (∀ st : CoordState,
      (clearSshData st).uptime = none ∧
      (clearSshData st).cpu_temperature = none ∧
      (clearSshData st).memory_total = none ∧
      (clearSshData st).memory_used_percent = none ∧
      (clearSshData st).storage_total = none ∧
      (clearSshData st).storage_used_percent = none ∧
      (clearSshData st).ssh_sensors_created = false ∧
      (clearSshData st).collector_held = false ∧
      (st.collector_held = true → (clearSshData st).collector_connected = false)) ∧
    (∀ st env m av tv v, st.token = true → EnvOk env →
      env.get_hid_mode = .ok ⟨m⟩ → m ≠ normalModeStr →
      env.get_application_version = .ok av → env.get_tailscale_status = .ok tv →
      env.get_ssh_state = .ok v → (v = none ∨ v = some ⟨false⟩) →
      (runBody st env).2 = none ∧
      (runBody st env).1.uptime = none ∧
      (runBody st env).1.cpu_temperature = none ∧
      (runBody st env).1.memory_total = none ∧
      (runBody st env).1.memory_used_percent = none ∧
      (runBody st env).1.storage_total = none ∧
      (runBody st env).1.storage_used_percent = none ∧
      (runBody st env).1.collector_held = false ∧
      (st.collector_held = true → (runBody st env).1.collector_connected = false)) := by
  constructor
  · intro st
    refine ⟨?_, ?_, ?_, ?_, ?_, ?_, ?_, ?_, ?_⟩ <;>
      (simp only [clearSshData]; split <;> simp_all)
  · intro st env m av tv v htok henv hhid hm happ hts hssh hv
    obtain ⟨⟨vi, hi⟩, ⟨v1, h1⟩, ⟨v2, h2⟩, ⟨v3, h3⟩, ⟨v4, h4⟩, ⟨v5, h5⟩, ⟨v6, h6⟩,
        ⟨v7, h7⟩, ⟨v8, h8⟩, ⟨v9, h9⟩, ⟨v10, h10⟩⟩ := henv
    rcases hv with hv | hv <;> subst hv <;>
      simp only [runBody, runBodyAfterAppVersion, capabilityBranch, sshBranch,
        clearSshData, htok, hi, h1, h2, h3, h4, h5, h6, h7, h8, h9, h10,
        hssh, hhid, hts, happ, if_true, if_neg hm, eq_self_iff_true,
        Bool.false_eq_true, if_false] <;>
      refine ⟨trivial, ?_, ?_, ?_, ?_, ?_, ?_, ?_, ?_⟩ <;>
        (try intro hheld) <;> split <;> simp_all

/-- C5 witness: an absent channel state clears all six metric fields and
drops the held collector. -/
theorem C5_channel_disabled_clears_all_witness :
    (runBody heldState okEnv).2 = none ∧
    (runBody heldState okEnv).1.uptime = none ∧
    (runBody heldState okEnv).1.cpu_temperature = none ∧
    (runBody heldState okEnv).1.memory_total = none ∧
    (runBody heldState okEnv).1.memory_used_percent = none ∧
    (runBody heldState okEnv).1.storage_total = none ∧
    (runBody heldState okEnv).1.storage_used_percent = none ∧
    (runBody heldState okEnv).1.collector_held = false ∧
    (heldState.collector_held = true →
      (runBody heldState okEnv).1.collector_connected = false) :=
  C5_channel_disabled_clears_all.2 heldState okEnv "hid-only".data 0 0 none rfl
    ⟨⟨_, rfl⟩, ⟨_, rfl⟩, ⟨_, rfl⟩, ⟨_, rfl⟩, ⟨_, rfl⟩, ⟨_, rfl⟩,
     ⟨_, rfl⟩, ⟨_, rfl⟩, ⟨_, rfl⟩, ⟨_, rfl⟩, ⟨_, rfl⟩⟩
    rfl (by decide) rfl rfl rfl (.inl rfl)

/-- C1 counterexample: two successive 401-failing attempts with a known
(non-placeholder) identity and successful fresh reauthentications lead to a
second full-cycle retry and a published snapshot — not to a terminal
update-failure after a single retry as the claim states. -/
theorem C1_counterexample_second_retry :
    resultRetries (updateData 5 baseState [env401, env401, okEnv] [none, none]) =
      some 2 ∧
    resultFailed (updateData 5 baseState [env401, env401, okEnv] [none, none]) =
      some false :=
  ⟨rfl, rfl⟩

/-- C1 (amended): when a body attempt fails with an auth-kind error
(authentication failure or HTTP 401) and the known identity is not the
`"Unknown"` placeholder, the coordinator replaces the session wholesale with
a freshly authenticated client and re-runs the whole cycle.  Retries are not
bounded at one: after a same-kind failure of the retry the handler runs
again — the tick fails terminally (after exactly one full-cycle retry) only
when the fresh reauthentication itself fails, and a second full-cycle retry
occurs whenever it succeeds. -/
theorem C1_reauth_retry_behaviour (fuel : ℕ) (st st1 st2 : CoordState)
    (e1 e2 : AttemptEnv) (envs : List AttemptEnv) (a2 : Option ErrKind)
    (reauths : List (Option ErrKind)) (k1 k2 : ErrKind)
    (h1 : runBody st e1 = (st1, some k1)) (hk1 : isAuthKind k1 = true)
    (happ1 : st1.device_info.application ≠ unknownStr)
    (h2 : runBody { st1 with token := true } e2 = (st2, some k2))
    (hk2 : isAuthKind k2 = true)
    (happ2 : st2.device_info.application ≠ unknownStr) :
    updateData (fuel + 2) st (e1 :: e2 :: envs) (none :: a2 :: reauths) =
      match a2 with
      | some _ => some (.updateFailed, 1)
      | none =>
        (updateData fuel { st2 with token := true } envs reauths).map
          (fun r => (r.1, r.2 + 2)) := by
  have step1 : updateData (fuel + 2) st (e1 :: e2 :: envs) (none :: a2 :: reauths) =
      match updateData (fuel + 1) { st1 with token := true } (e2 :: envs)
          (a2 :: reauths) with
      | none => none
      | some (r, n) => some (r, n + 1) := by
    show updateData ((fuel + 1) + 1) st (e1 :: e2 :: envs) (none :: a2 :: reauths) = _
    simp only [updateData, h1]
    rw [if_pos ⟨hk1, happ1⟩]
  have step2 : updateData (fuel + 1) { st1 with token := true } (e2 :: envs)
      (a2 :: reauths) =
      match a2 with
      | some _ => some (.updateFailed, 0)
      | none =>
        match updateData fuel { st2 with token := true } envs reauths with
        | none => none
        | some (r, n) => some (r, n + 1) := by
    simp only [updateData, h2]
    rw [if_pos ⟨hk2, happ2⟩]
    rcases a2 with _ | a <;> rfl
  rw [step1, step2]
  rcases a2 with _ | a
  · rcases hr : updateData fuel { st2 with token := true } envs reauths with _ | ⟨r, n⟩
    · rfl
    · show some (r, n + 1 + 1) = some (r, n + 2)
      rw [add_assoc]
  · rfl

/-- C1 witness: a 401-failing attempt, a successful fresh reauthentication,
a 401-failing retry, then a failing reauthentication: the tick ends in
`UpdateFailed` after exactly one full-cycle retry. -/
theorem C1_reauth_retry_behaviour_witness :
    updateData 2 baseState [env401, env401] [none, some .authFailure] =
      some (.updateFailed, 1) :=
  C1_reauth_retry_behaviour 0 baseState
    (runBody baseState env401).1
    (runBody { (runBody baseState env401).1 with token := true } env401).1
    env401 env401 [] (some .authFailure) [] (.respError 401) (.respError 401)
    rfl rfl (by decide) rfl rfl (by decide)
